import Mathlib

/-!
Verification of the GottenGeography core algorithms: the timestamp
interpolation engine, coordinate validation, degree conversion, and the
streaming GPX parser. Each definition is a shallow embedding of the
corresponding Python function from the repository; floats are modelled as
exact rationals (ℚ) and Python integers as ℤ.
-/

namespace GG

/-! Section: Data model

`self.tracks` in `gottengeography.py` is a dict mapping UTC epoch seconds to
`{'elevation': float, 'point': ChamplainPoint}` where the point carries
`.lat` and `.lon`.  We model it as an association list from ℤ to a record of
the three coordinate values. -/

structure TrackEntry where
  lat : ℚ
  lon : ℚ
  elevation : ℚ
deriving DecidableEq, Repr

/-- Python dict lookup `self.tracks[t]`, returning `none` where the dict
raises `KeyError`. -/
def lookupTrack : List (Int × TrackEntry) → Int → Option TrackEntry
  | [], _ => none
  | (k, v) :: rest, t => if k = t then some v else lookupTrack rest t

/-- A row of the `loaded_photos` GtkListStore together with the bookkeeping
attached to it: `marker` is the ChamplainMarker position (PHOTO_MARKER
column; `none` once destroyed), and `inModified` is membership of the
photo's filename in the `self.modified` dict. -/
structure Photo where
  path : String
  timestamp : Int
  lat : Option ℚ
  lon : Option ℚ
  alt : Option ℚ
  marker : Option (ℚ × ℚ)
  inModified : Bool
deriving DecidableEq, Repr

/-! Section: Coordinate validation (`GottenGeography.valid_coords`)

Python 2 comparison semantics: `None >= number` is `False` while
`None <= number` is `True` (`None` sorts below every number).  The source
relies on this so that an absent coordinate fails the chain. -/

/-- Python 2 `a >= q` where `a` may be `None`. -/
def pyGe : Option ℚ → ℚ → Bool
  | none, _ => false
  | some x, q => decide (q ≤ x)

/-- Python 2 `a <= q` where `a` may be `None`. -/
def pyLe : Option ℚ → ℚ → Bool
  | none, _ => true
  | some x, q => decide (x ≤ q)

/-- `lat >= -90 and lat <= 90 and lon >= -180 and lon <= 180`. -/
def valid_coords (lat lon : Option ℚ) : Bool :=
  pyGe lat (-90) && pyLe lat 90 && pyGe lon (-180) && pyLe lon 180

/-! Section: `GottenGeography._insert_coordinates`

The marker is destroyed first, the filename is recorded in `self.modified`
whenever the `modified` argument is true, the altitude cell is written only
when `ele` is truthy (Python: `if ele:` is false for `None` and for `0.0`),
and the latitude/longitude cells (plus a fresh marker) are written only when
`valid_coords` passes. -/

def insert_coordinates (photo : Photo) (lat lon ele : Option ℚ) (modified : Bool) : Photo :=
  let p1 := { photo with marker := none }
  let p2 := if modified then { p1 with inModified := true } else p1
  let p3 := match ele with
            | some e => if e = 0 then p2 else { p2 with alt := some e }
            | none => p2
  if valid_coords lat lon then
    { p3 with lat := lat, lon := lon,
              marker := some (lat.getD 0, lon.getD 0) }
  else p3

/-- `GottenGeography.apply_single_photo`: applies the map view's centre
coordinates through `_insert_coordinates` with no elevation and the default
`modified=True`.  The map view's latitude/longitude properties are plain
floats, hence always present. -/
def apply_single_photo (photo : Photo) (mapLat mapLon : ℚ) : Photo :=
  insert_coordinates photo (some mapLat) (some mapLon) none true

/-! Section: `GottenGeography.auto_timestamp_comparison`

The computation of the interpolated latitude/longitude/elevation
(lines 467-539).  `highest`/`lowest` are `self.HIGHEST`/`self.LOWEST`,
`fudge` is the clock-offset spin button's value (an integer-valued float;
modelled as ℤ).  The dict iteration `for point in self.tracks` is modelled
as a fold over the association list; its result is order independent. -/

inductive InterpResult
  | insufficient
  | keyError
  | ok (lat lon ele : ℚ)
deriving DecidableEq, Repr

def interpolate (tracks : List (Int × TrackEntry)) (highest lowest : Int)
    (photoTime fudge : Int) : InterpResult :=
  if tracks.length < 2 then .insufficient
  else
    let photo := photoTime + fudge
    let photo := if photo < lowest then lowest else photo
    let photo := if photo > highest then highest else photo
    match lookupTrack tracks photo with
    | some entry => .ok entry.lat entry.lon entry.elevation
    | none =>
      let hl := tracks.foldl (fun (hl : Int × Int) kv =>
        let higher := if kv.1 > photo ∧ kv.1 < hl.1 then kv.1 else hl.1
        let lower := if kv.1 < photo ∧ kv.1 > hl.2 then kv.1 else hl.2
        (higher, lower)) (highest, lowest)
      let delta : ℚ := (hl.1 : ℚ) - (hl.2 : ℚ)
      let low_perc : ℚ := ((photo : ℚ) - (hl.2 : ℚ)) / delta
      let high_perc : ℚ := ((hl.1 : ℚ) - (photo : ℚ)) / delta
      match lookupTrack tracks hl.2, lookupTrack tracks hl.1 with
      | some lo, some hi =>
        .ok (lo.lat * low_perc + hi.lat * high_perc)
            (lo.lon * low_perc + hi.lon * high_perc)
            (lo.elevation * low_perc + hi.elevation * high_perc)
      | _, _ => .keyError

/-- The whole of `auto_timestamp_comparison` at the photo-record level:
the early `return` for an under-populated track leaves the row untouched,
otherwise the computed values flow into `_insert_coordinates`.  `none`
models an uncaught `KeyError` (unreachable when `lowest`/`highest` are
genuine keys of the dict). -/
def auto_timestamp_comparison (tracks : List (Int × TrackEntry))
    (highest lowest fudge : Int) (photo : Photo) : Option Photo :=
  match interpolate tracks highest lowest photo.timestamp fudge with
  | .insufficient => some photo
  | .keyError => none
  | .ok la lo el => some (insert_coordinates photo (some la) (some lo) (some el) true)

/-- Modelled from the spec: the linear-interpolation formula of §4.3 step 5,
`low_weight = (upper - target) / span`, `high_weight = (target - lower) / span`,
result `= low_weight * value(lower) + high_weight * value(upper)`.  Used only
to compare the code's arithmetic against the spec's. -/
def spec_lerp (lowerT upperT target : Int) (vLo vHi : ℚ) : ℚ :=
  let span : ℚ := (upperT : ℚ) - (lowerT : ℚ)
  let low_weight : ℚ := ((upperT : ℚ) - (target : ℚ)) / span
  let high_weight : ℚ := ((target : ℚ) - (lowerT : ℚ)) / span
  low_weight * vLo + high_weight * vHi

/-! Section: Degree conversion (`dms_to_decimal`, `decimal_to_dms`)

`pyexiv2.Rational` values are modelled as the exact rationals they denote
(the code immediately divides numerator by denominator in float arithmetic;
here that division is exact). -/

/-- `re.match("[SWsw]", sign)`: does the string start with a south/west
hemisphere letter. -/
def matchSW (sign : String) : Bool :=
  match sign.data with
  | c :: _ => c = 'S' || c = 'W' || c = 's' || c = 'w'
  | [] => false

/-- `GottenGeography.dms_to_decimal`: degrees + minutes/60 + seconds/3600,
negated for a south/west hemisphere letter (default `sign=""` is positive). -/
def dms_to_decimal (dms : ℚ × ℚ × ℚ) (sign : String) : ℚ :=
  (dms.1 + dms.2.1 / 60 + dms.2.2 / 3600) * (if matchSW sign then -1 else 1)

/-- Python `math.modf`: the fractional and whole parts, the whole part
truncated toward zero. -/
def modf (x : ℚ) : ℚ × ℚ :=
  let whole : Int := if x < 0 then ⌈x⌉ else ⌊x⌋
  (x - (whole : ℚ), (whole : ℚ))

/-- The convergents loop of Python `fractions.Fraction.limit_denominator`.
Fuel-recursive; the fuel bounds the Euclidean iteration count, which the
`q2 > max_denominator` break reaches first for every input in lowest terms
with denominator above the cap. -/
def ldLoop : Nat → Int → Int → Int → Int → Int → Int → Int → Int × Int × Int × Int
  | 0, _, p0, q0, p1, q1, _, _ => (p0, q0, p1, q1)
  | fuel+1, maxd, p0, q0, p1, q1, n, d =>
    let a := n.fdiv d
    let q2 := q0 + a * q1
    if maxd < q2 then (p0, q0, p1, q1)
    else ldLoop fuel maxd p1 q1 (p0 + a * p1) q2 d (n - a * d)

/-- Python `fractions.Fraction.limit_denominator(max_denominator)`: the
input itself when its denominator already fits, otherwise the better of the
two candidate best approximations built from the continued-fraction
convergents. -/
def limit_denominator (x : ℚ) (maxDen : Nat) : ℚ :=
  if x.den ≤ maxDen then x
  else
    let r := ldLoop (x.den + 1) (maxDen : Int) 0 1 1 0 x.num (x.den : Int)
    let k := ((maxDen : Int) - r.2.1).fdiv r.2.2.2
    let bound1 : ℚ := ((r.1 + k * r.2.2.1 : Int) : ℚ) / ((r.2.1 + k * r.2.2.2 : Int) : ℚ)
    let bound2 : ℚ := ((r.2.2.1 : Int) : ℚ) / ((r.2.2.2 : Int) : ℚ)
    if |bound2 - x| ≤ |bound1 - x| then bound2 else bound1

/-- `GottenGeography.float_to_rational`:
`Fraction(str(decimal)).limit_denominator(10000)`; on the exact rationals of
this model the `str` round trip is the identity. -/
def float_to_rational (decimal : ℚ) : ℚ :=
  limit_denominator decimal 10000

/-- `GottenGeography.decimal_to_dms`: successive fractional-part extraction
of `abs(decimal)`; degrees and minutes become integer rationals and the
seconds go through `float_to_rational`.  (The statusbar self-check that only
reports large rounding is not part of the returned value.) -/
def decimal_to_dms (decimal : ℚ) : ℚ × ℚ × ℚ :=
  let d := |decimal|
  let m1 := modf d
  let m2 := modf (m1.1 * 60)
  let seconds := m2.1 * 60
  (m1.2, m2.2, float_to_rational seconds)

/-! Section: Streaming GPX parser (`gg/xmlfiles.py`)

`XMLSimpleParser` composed with the `GPXFile` callbacks, as a step function
over the stream of expat events (start element / character data / end
element).  Lean's own `String.split`/`String.trim` are defined by
well-founded recursion and do not evaluate inside proofs, so the splitting
runs on the character list with structural recursion. -/

/-- The character class of the compiled regex `[:TZ-]`. -/
def isoDelim (c : Char) : Bool :=
  c = ':' || c = 'T' || c = 'Z' || c = '-'

def splitCharsAux (delim : Char → Bool) : List Char → List Char → List (List Char)
  | [], acc => [acc.reverse]
  | c :: rest, acc =>
    if delim c then acc.reverse :: splitCharsAux delim rest []
    else splitCharsAux delim rest (c :: acc)

/-- `split = re.compile(r'[:TZ-]').split`: like Python `re.split`, keeps the
empty fields that arise between adjacent delimiters and at either end. -/
def split (s : String) : List String :=
  (splitCharsAux isoDelim s.data []).map List.asString

/-- Python `not data or data.strip() == ''`: the chunk contributes nothing
when it is empty or all whitespace. -/
def isBlank (s : String) : Bool :=
  s.data.all Char.isWhitespace

def digitsVal (l : List Char) : Nat :=
  l.foldl (fun acc c => acc * 10 + (c.toNat - '0'.toNat)) 0

def allDigits (l : List Char) : Bool :=
  l.all Char.isDigit

/-- Python 2 `int(string)` as applied to the split date fields: an optional
sign followed by decimal digits (the surrounding-whitespace form never
occurs in these fields and is not modelled). -/
def pyInt (s : String) : Option Int :=
  match s.data with
  | [] => none
  | '-' :: rest => if rest ≠ [] ∧ allDigits rest then some (-(digitsVal rest : Int)) else none
  | '+' :: rest => if rest ≠ [] ∧ allDigits rest then some (digitsVal rest : Int) else none
  | l => if allDigits l then some (digitsVal l : Int) else none

def takeDigits (l : List Char) : List Char × List Char :=
  (l.takeWhile Char.isDigit, l.dropWhile Char.isDigit)

/-- The exponent suffix of a Python float literal: optional sign and digits,
nothing may follow. -/
def pyFloatExp (mant : ℚ) (l : List Char) : Option ℚ :=
  let sl : Int × List Char :=
    match l with
    | '+' :: r => (1, r)
    | '-' :: r => (-1, r)
    | r => (1, r)
  let ds := takeDigits sl.2
  if ds.1 ≠ [] ∧ ds.2 = [] then some (mant * (10 : ℚ) ^ (sl.1 * (digitsVal ds.1 : Int)))
  else none

/-- The unsigned part of a Python float literal:
`digits [. [digits]] | . digits`, optionally followed by `e`/`E` and an
exponent. -/
def pyFloatCore (l : List Char) : Option ℚ :=
  let ip := takeDigits l
  match ip.2 with
  | '.' :: rest2 =>
    let fp := takeDigits rest2
    if ip.1 = [] ∧ fp.1 = [] then none
    else
      let mant : ℚ := (digitsVal ip.1 : ℚ) + (digitsVal fp.1 : ℚ) / (10 : ℚ) ^ fp.1.length
      match fp.2 with
      | [] => some mant
      | 'e' :: rest3 => pyFloatExp mant rest3
      | 'E' :: rest3 => pyFloatExp mant rest3
      | _ => none
  | 'e' :: rest3 => if ip.1 = [] then none else pyFloatExp (digitsVal ip.1 : ℚ) rest3
  | 'E' :: rest3 => if ip.1 = [] then none else pyFloatExp (digitsVal ip.1 : ℚ) rest3
  | [] => if ip.1 = [] then none else some (digitsVal ip.1 : ℚ)
  | _ => none

/-- Python `float(string)` restricted to finite decimal literals (the form
GPX `lat`/`lon`/`ele` data takes; `inf`/`nan` and surrounding whitespace are
not modelled). -/
def pyFloat (s : String) : Option ℚ :=
  match s.data with
  | '+' :: rest => pyFloatCore rest
  | '-' :: rest => (pyFloatCore rest).map Neg.neg
  | l => pyFloatCore l

/-- `datetime`'s Gregorian leap-year predicate. -/
def isLeap (y : Int) : Bool :=
  y % 4 == 0 && (y % 100 != 0 || y % 400 == 0)

/-- Cumulative days before month `m` (1-based) of year `y`. -/
def daysBeforeMonth (y m : Int) : Int :=
  let table : List Int := [0, 31, 59, 90, 120, 151, 181, 212, 243, 273, 304, 334]
  table.getD (m - 1).toNat 0 + (if 2 < m ∧ isLeap y then 1 else 0)

/-- `datetime.date(y, m, d).toordinal()`: proleptic Gregorian day number,
with 0001-01-01 as day 1. -/
def toordinal (y m d : Int) : Int :=
  let py := y - 1
  365 * py + py.fdiv 4 - py.fdiv 100 + py.fdiv 400 + daysBeforeMonth y m + d

/-- `calendar.timegm` applied to the six-field list `[y, mo, d, h, mi, s]`:
`datetime.date(year, month, 1)` anchors the day count, so month and year are
range-checked (`ValueError` = `none`) while day, hour, minute and second are
used unchecked. -/
def timegm (y mo d h mi s : Int) : Option Int :=
  if 1 ≤ y ∧ y ≤ 9999 ∧ 1 ≤ mo ∧ mo ≤ 12 then
    let days := toordinal y mo 1 - toordinal 1970 1 1 + d - 1
    some (((days * 24 + h) * 60 + mi) * 60 + s)
  else none

/-- `timegm(map(int, split(state['time'])[0:6]))`: the first six split
fields as integers; any failure (too few fields, a non-integer field, an
out-of-range month or year) is an exception that the `trkpt` handler
catches. -/
def parseGpxTime (s : String) : Option Int :=
  match ((split s).take 6).mapM pyInt with
  | some [y, mo, d, h, mi, sec] => timegm y mo d h mi sec
  | _ => none

/-- The parser's `self.state` dict (element/attribute name ↦ accumulated
string): lookup, returning `none` where Python raises `KeyError`. -/
def bufGet : List (String × String) → String → Option String
  | [], _ => none
  | (k, v) :: rest, key => if k = key then some v else bufGet rest key

/-- `state[name] = value`: overwrite in place or insert. -/
def bufSet : List (String × String) → String → String → List (String × String)
  | [], key, val => [(key, val)]
  | (k, v) :: rest, key, val =>
    if k = key then (k, val) :: rest else (k, v) :: bufSet rest key val

/-- `state.update(attributes)`. -/
def bufUpdate (buf : List (String × String)) (attrs : List (String × String)) :
    List (String × String) :=
  attrs.foldl (fun b kv => bufSet b kv.1 kv.2) buf

/-- `state[self.element] += data`; the key is always present because it was
initialised when its start tag was seen (the `none` arm is unreachable). -/
def bufAppendData (buf : List (String × String)) (key data : String) :
    List (String × String) :=
  match bufGet buf key with
  | some v => bufSet buf key (v ++ data)
  | none => bufSet buf key data

/-- One emitted GPX track point: the arguments of `self.append(lat, lon, ele)`
(which become the dict entry for the point's timestamp). -/
structure TrackPoint where
  lat : ℚ
  lon : ℚ
  ele : ℚ
deriving DecidableEq, Repr

/-- `self.tracks[timestamp] = ...` in `GPXFile.element_end` (dict upsert). -/
def upsertTrack : List (Int × TrackPoint) → Int → TrackPoint → List (Int × TrackPoint)
  | [], t, p => [(t, p)]
  | (k, v) :: rest, t, p =>
    if k = t then (k, p) :: rest else (k, v) :: upsertTrack rest t p

/-- The expat events `XMLSimpleParser` installs handlers for. -/
inductive XmlEvent
  | start (name : String) (attrs : List (String × String))
  | chardata (data : String)
  | close (name : String)
deriving DecidableEq, Repr

inductive GpxError
  /-- The `IOError` raised by `XMLSimpleParser.element_root` when the
  document's root element is not the declared one. -/
  | rootMismatch
  /-- An exception escaping `GPXFile.element_end` uncaught: `self.append`
  still `None`, or an `ele` child present but not float-parsable. -/
  | abortedPoint
deriving DecidableEq, Repr

/-- The combined state of `XMLSimpleParser` and `GPXFile`: `hasAppend`
models `self.append is not None`, `segments` counts the
`add_polygon_to_map()` calls (one per `trkseg`). -/
structure GpxState where
  rootSeen : Bool
  tracking : Option String
  element : String
  buf : List (String × String)
  hasAppend : Bool
  segments : Nat
  tracks : List (Int × TrackPoint)
deriving DecidableEq, Repr

def initGpxState : GpxState :=
  { rootSeen := false, tracking := none, element := "", buf := [],
    hasAppend := false, segments := 0, tracks := [] }

/-- The `try` block of `GPXFile.element_end`: timestamp, latitude and
longitude; `none` is the caught exception (skip this point, keep parsing). -/
def trkptFields (buf : List (String × String)) : Option (Int × ℚ × ℚ) := do
  let ts ← bufGet buf "time" >>= parseGpxTime
  let la ← bufGet buf "lat" >>= pyFloat
  let lo ← bufGet buf "lon" >>= pyFloat
  pure (ts, la, lo)

/-- `GPXFile.element_end`: non-`trkpt` closes do nothing; a failing `try`
block skips the point; otherwise `float(state.get('ele', 0.0))` and the
`self.append(...)` call each raise uncaught when they go wrong (`none` =
the whole parse aborts). -/
def gpxElementEnd (name : String) (hasAppend : Bool)
    (buf : List (String × String)) (tracks : List (Int × TrackPoint)) :
    Option (List (Int × TrackPoint)) :=
  if name ≠ "trkpt" then some tracks
  else
    match trkptFields buf with
    | none => some tracks
    | some (ts, la, lo) =>
      let ele? : Option ℚ :=
        match bufGet buf "ele" with
        | none => some 0
        | some s => pyFloat s
      match ele?, hasAppend with
      | some e, true => some (upsertTrack tracks ts ⟨la, lo, e⟩)
      | _, _ => none

/-- One expat callback dispatch of `XMLSimpleParser` with the `GPXFile`
callbacks plugged in.  `rootname` is the declared root element
(`XMLSimpleParser.rootname`); `GPXFile` passes `'gpx'`. -/
def gpxStep (rootname : Option String) (st : GpxState) (ev : XmlEvent) :
    Except GpxError GpxState :=
  match ev with
  | .start name _attrs =>
    if ¬ st.rootSeen then
      match rootname with
      | some rn =>
        if name = rn then .ok { st with rootSeen := true }
        else .error .rootMismatch
      | none => .ok { st with rootSeen := true }
    else
      let st1 :=
        if st.tracking = none then
          if ¬ (name = "trkseg" ∨ name = "trkpt") then st
          else
            let st' :=
              if name = "trkseg" then
                { st with hasAppend := true, segments := st.segments + 1 }
              else st
            if name = "trkpt" then { st' with tracking := some name } else st'
        else st
      if st1.tracking ≠ none then
        .ok { st1 with element := name, buf := bufUpdate (bufSet st1.buf name "") _attrs }
      else .ok st1
  | .chardata data =>
    if st.tracking = none then .ok st
    else if isBlank data then .ok st
    else .ok { st with buf := bufAppendData st.buf st.element data }
  | .close name =>
    match st.tracking with
    | none => .ok st
    | some t =>
      if name ≠ t then .ok st
      else
        match gpxElementEnd name st.hasAppend st.buf st.tracks with
        | none => .error .abortedPoint
        | some tracks' =>
          .ok { st with tracks := tracks', tracking := none, buf := [] }

/-- Feed an event stream through the parser, stopping at the first uncaught
exception (which in the program propagates out of `parse`). -/
def runGpx (rootname : Option String) :
    List XmlEvent → GpxState → GpxState × Option GpxError
  | [], st => (st, none)
  | ev :: rest, st =>
    match gpxStep rootname st ev with
    | .ok st' => runGpx rootname rest st'
    | .error e => (st, some e)

/-- `GPXFile`: `XMLSimpleParser` instantiated with root `'gpx'` and watch
list `['trkseg', 'trkpt']`. -/
def runGPXFile (events : List XmlEvent) : GpxState × Option GpxError :=
  runGpx (some "gpx") events initGpxState

/-- A loaded photo row used by the concrete witnesses: geotagged at (5, 6),
altitude 7, with a live marker and no pending modification. -/
def demoPhoto : Photo :=
  { path := "demo.jpg", timestamp := 150, lat := some 5, lon := some 6,
    alt := some 7, marker := some (5, 6), inModified := false }

/-- The expat event stream of a GPX document with three track points spread
over two `trkseg` segments (the layout of the spec's streaming-parser
property). -/
def demoEvents : List XmlEvent := [
  .start "gpx" [],
  .start "trk" [], .start "name" [], .chardata "demo", .close "name",
  .start "trkseg" [],
  .start "trkpt" [("lat", "10.0"), ("lon", "20.0")],
  .start "time" [], .chardata "2010-10-16T20:09:13Z", .close "time",
  .start "ele" [], .chardata "540.0", .close "ele",
  .close "trkpt",
  .close "trkseg",
  .start "trkseg" [],
  .start "trkpt" [("lat", "10.5"), ("lon", "20.5")],
  .start "time" [], .chardata "2010-10-16T20:09:14Z", .close "time",
  .close "trkpt",
  .start "trkpt" [("lat", "11.0"), ("lon", "21.0")],
  .start "time" [], .chardata "2010-10-16T20:09:15Z", .close "time",
  .close "trkpt",
  .close "trkseg",
  .close "trk", .close "gpx" ]

/-! Theorems settling the claims. -/

/-- Claim C1 (code bug): the spec's interpolation formula weights the lower
point by `(upper - target) / span`, but the code weights it by
`low_perc = (photo - lower) / delta`, i.e. the two weights are swapped.  On
the track {100 ↦ (10, 20, 0), 200 ↦ (11, 21, 0)} at target 125 the code
produces latitude 10.75 where the spec's formula (and the code's own inline
comment about being "25% of the distance away from the prior point")
requires 10.25. -/
theorem C1_interpolation_weights_swapped :
    interpolate [(100, ⟨10, 20, 0⟩), (200, ⟨11, 21, 0⟩)] 200 100 125 0
      = .ok (43/4) (83/4) 0 ∧
    spec_lerp 100 200 125 10 11 = 41/4 ∧
    ((43 : ℚ)/4) ≠ (41/4 : ℚ) := by
  refine ⟨?_, ?_, by norm_num⟩
  · norm_num [interpolate, lookupTrack]
  · norm_num [spec_lerp]

/-- Claim C2 (counterexample): a single-point track containing a point at
exactly the target timestamp does not return that point — interpolation
bails out with the insufficient-data early return before the exact-match
lookup is reached. -/
theorem C2_single_point_not_returned :
    interpolate [(100, ⟨10, 20, 5⟩)] 100 100 100 0 = .insufficient ∧
    InterpResult.insufficient ≠ .ok 10 20 5 :=
  ⟨by decide, by simp⟩

/-- Claim C2 (amended): for a track with at least two points, a clock offset
of zero and a target timestamp `T` within `[lowest, highest]` at which a
track point exists, interpolation returns exactly that point's latitude,
longitude and elevation, with no arithmetic performed on them. -/
theorem C2_exact_match (tracks : List (Int × TrackEntry)) (highest lowest T : Int)
    (e : TrackEntry) (hlen : 2 ≤ tracks.length) (hlo : lowest ≤ T) (hhi : T ≤ highest)
    (hfind : lookupTrack tracks T = some e) :
    interpolate tracks highest lowest T 0 = .ok e.lat e.lon e.elevation := by
  have h1 : ¬ tracks.length < 2 := by omega
  have h2 : ¬ T < lowest := by omega
  have h3 : ¬ T > highest := by omega
  simp only [interpolate, add_zero, if_neg h1, if_neg h2, if_neg h3, hfind]

/-- Witness for C2: on the two-point track the exact timestamp 200 returns
the stored entry (11, 21, 6) unchanged. -/
theorem C2_exact_match_witness :
    interpolate [(100, ⟨10, 20, 5⟩), (200, ⟨11, 21, 6⟩)] 200 100 200 0
      = .ok 11 21 6 :=
  C2_exact_match _ 200 100 200 ⟨11, 21, 6⟩ (by norm_num) (by norm_num) (by norm_num)
    (by norm_num [lookupTrack])

/-- Claim C3: with at least two points and `lowest`/`highest` present as
keys, a target before the range returns exactly the earliest point's values
and a target after the range returns exactly the latest point's values. -/
theorem C3_out_of_range_clamped (tracks : List (Int × TrackEntry))
    (highest lowest T : Int) (eLo eHi : TrackEntry)
    (hlen : 2 ≤ tracks.length) (hord : lowest ≤ highest)
    (hLo : lookupTrack tracks lowest = some eLo)
    (hHi : lookupTrack tracks highest = some eHi) :
    (T < lowest → interpolate tracks highest lowest T 0 = .ok eLo.lat eLo.lon eLo.elevation) ∧
    (highest < T → interpolate tracks highest lowest T 0 = .ok eHi.lat eHi.lon eHi.elevation) := by
  constructor
  · intro hT
    simp only [interpolate, add_zero, if_neg (show ¬ tracks.length < 2 by omega),
      if_pos hT, if_neg (show ¬ lowest > highest by omega), hLo]
  · intro hT
    simp only [interpolate, add_zero, if_neg (show ¬ tracks.length < 2 by omega),
      if_neg (show ¬ T < lowest by omega), if_pos (show T > highest from hT), hHi]

/-- Witness for C3: target 50 (before the range) yields the earliest point
(10, 20, 5); target 300 (after the range) yields the latest point
(11, 21, 6). -/
theorem C3_out_of_range_clamped_witness :
    interpolate [(100, ⟨10, 20, 5⟩), (200, ⟨11, 21, 6⟩)] 200 100 50 0 = .ok 10 20 5 ∧
    interpolate [(100, ⟨10, 20, 5⟩), (200, ⟨11, 21, 6⟩)] 200 100 300 0 = .ok 11 21 6 :=
  ⟨(C3_out_of_range_clamped _ 200 100 50 ⟨10, 20, 5⟩ ⟨11, 21, 6⟩ (by norm_num) (by norm_num)
      (by norm_num [lookupTrack]) (by norm_num [lookupTrack])).1 (by norm_num),
   (C3_out_of_range_clamped _ 200 100 300 ⟨10, 20, 5⟩ ⟨11, 21, 6⟩ (by norm_num) (by norm_num)
      (by norm_num [lookupTrack]) (by norm_num [lookupTrack])).2 (by norm_num)⟩

/-- Claim C4: with fewer than two track points, interpolation reports the
insufficient-data condition for every photo timestamp and clock offset, and
`auto_timestamp_comparison` returns the photo record completely unchanged
(coordinates, elevation and modified flag included). -/
theorem C4_insufficient_data (tracks : List (Int × TrackEntry))
    (highest lowest fudge : Int) (photo : Photo) (h : tracks.length < 2) :
    interpolate tracks highest lowest photo.timestamp fudge = .insufficient ∧
    auto_timestamp_comparison tracks highest lowest fudge photo = some photo := by
  have h1 : interpolate tracks highest lowest photo.timestamp fudge = .insufficient := by
    simp only [interpolate, if_pos h]
  exact ⟨h1, by simp only [auto_timestamp_comparison, h1]⟩

/-- Witness for C4: the empty track and a one-point track both leave the
demo photo untouched. -/
theorem C4_insufficient_data_witness :
    auto_timestamp_comparison [] 0 0 0 demoPhoto = some demoPhoto ∧
    auto_timestamp_comparison [(100, ⟨10, 20, 5⟩)] 100 100 0 demoPhoto = some demoPhoto :=
  ⟨(C4_insufficient_data [] 0 0 0 demoPhoto (by norm_num)).2,
   (C4_insufficient_data [(100, ⟨10, 20, 5⟩)] 100 100 0 demoPhoto (by norm_num)).2⟩

/-- Claim C5 (counterexample): applying the manual coordinates (100, 0) —
latitude out of bounds — to a photo with no pending modification still marks
the record modified, refuting "silently no-ops ... the record is not marked
modified"; the latitude/longitude cells themselves are indeed not written. -/
theorem C5_invalid_still_marks_modified :
    valid_coords (some 100) (some 0) = false ∧
    (apply_single_photo demoPhoto 100 0).inModified = true ∧
    demoPhoto.inModified = false ∧
    (apply_single_photo demoPhoto 100 0).lat = demoPhoto.lat ∧
    (apply_single_photo demoPhoto 100 0).lon = demoPhoto.lon := by
  refine ⟨by norm_num [valid_coords, pyGe, pyLe], ?_, rfl, ?_, ?_⟩ <;>
    norm_num [apply_single_photo, insert_coordinates, valid_coords, pyGe, pyLe, demoPhoto]

/-- Claim C5 (amended): with invalid manual coordinates the photo's
latitude, longitude and altitude are left unchanged but the record is
nevertheless inserted into the modified set and its marker destroyed
(`_insert_coordinates` records the modification before validating); with
valid coordinates the latitude/longitude are written, a marker is placed and
the record is marked modified. -/
theorem C5_apply_manual (photo : Photo) (la lo : ℚ) :
    (valid_coords (some la) (some lo) = false →
      apply_single_photo photo la lo =
        { photo with marker := none, inModified := true }) ∧
    (valid_coords (some la) (some lo) = true →
      apply_single_photo photo la lo =
        { photo with lat := some la, lon := some lo,
                     marker := some (la, lo), inModified := true }) := by
  constructor <;> intro h <;>
    simp [apply_single_photo, insert_coordinates, h]

/-- Witness for C5: both branches evaluated on the demo photo, with the
invalid pair (100, 0) and the valid pair (49, -123). -/
theorem C5_apply_manual_witness :
    valid_coords (some 100) (some 0) = false ∧
    apply_single_photo demoPhoto 100 0 =
      { demoPhoto with marker := none, inModified := true } ∧
    valid_coords (some 49) (some (-123)) = true ∧
    apply_single_photo demoPhoto 49 (-123) =
      { demoPhoto with lat := some 49, lon := some (-123),
                       marker := some (49, -123), inModified := true } :=
  ⟨by norm_num [valid_coords, pyGe, pyLe],
   (C5_apply_manual demoPhoto 100 0).1 (by norm_num [valid_coords, pyGe, pyLe]),
   by norm_num [valid_coords, pyGe, pyLe],
   (C5_apply_manual demoPhoto 49 (-123)).2 (by norm_num [valid_coords, pyGe, pyLe])⟩

unseal Rat.add Rat.mul Rat.inv Rat.sub Rat.ofScientific in
/-- Claim C6 (counterexample): the round trip misses the claimed 1e-10 bound
in two independent ways.  At x = -1 it returns +1 (error 2): `decimal_to_dms`
takes `abs(decimal)` first, so "recovers x ... (including negative x)"
fails.  And at the positive, in-range x = 1/72003600 the exact seconds
remainder is 1/20001, whose denominator exceeds the 10000 cap, so
`limit_denominator` runs its convergents loop and settles on 0: the round
trip returns 0 with error 1/72003600 ≈ 1.39e-8. -/
theorem C6_round_trip_bound_fails :
    (dms_to_decimal (decimal_to_dms (-1)) "" = 1 ∧
      ¬ |dms_to_decimal (decimal_to_dms (-1)) "" - (-1)| ≤ 1 / 10 ^ 10) ∧
    (dms_to_decimal (decimal_to_dms (1 / 72003600)) "" = 0 ∧
      ¬ |dms_to_decimal (decimal_to_dms (1 / 72003600)) "" - 1 / 72003600| ≤ 1 / 10 ^ 10) := by
  refine ⟨⟨by decide, by decide⟩, ⟨by decide, by decide⟩⟩

/-- Claim C6 (amended): for every x the round trip returns `|x|` plus
exactly the seconds-rounding term of `limit_denominator`: the sign is
discarded, the degrees/minutes decomposition is error-free, and the sole
error source is `float_to_rational` on the exact seconds remainder
`s = modf(modf(|x|).frac * 60).frac * 60` — the quantity the code's own
statusbar self-check monitors (and merely reports when it exceeds 1e-10). -/
theorem C6_round_trip_seconds_rounding (x : ℚ) :
    dms_to_decimal (decimal_to_dms x) "" =
      |x| + (float_to_rational ((modf ((modf |x|).1 * 60)).1 * 60)
              - (modf ((modf |x|).1 * 60)).1 * 60) / 3600 := by
  have hm : matchSW "" = false := rfl
  simp only [dms_to_decimal, decimal_to_dms, modf, hm]
  simp only [Bool.false_eq_true, if_false]
  ring

/-- Claim C7 (counterexample): the string 2010-10-16T20:09:13Z does not
parse to the claimed epoch 1287260953 (that value is 20:29:13); the code
yields 1287259753. -/
theorem C7_epoch_value_wrong :
    parseGpxTime "2010-10-16T20:09:13Z" = some 1287259753 ∧
    parseGpxTime "2010-10-16T20:09:13Z" ≠ some 1287260953 := by
  exact ⟨by decide, by decide⟩

unseal Rat.add Rat.mul Rat.inv Rat.sub Rat.ofScientific in
/-- Claim C7 (amended): the time string splits on the `[:TZ-]` delimiters
into the six date/time fields, which are converted as UTC to epoch seconds —
2010-10-16T20:09:13Z parses to exactly 1287259753 — and the demo document
with three `trkpt` elements across two `trkseg` segments yields two segment
starts and the three points, in document order, with those epochs. -/
theorem C7_gpx_time_parsing :
    split "2010-10-16T20:09:13Z" = ["2010", "10", "16", "20", "09", "13", ""] ∧
    parseGpxTime "2010-10-16T20:09:13Z" = some 1287259753 ∧
    (runGPXFile demoEvents).2 = none ∧
    (runGPXFile demoEvents).1.segments = 2 ∧
    (runGPXFile demoEvents).1.tracks =
      [(1287259753, ⟨10, 20, 540⟩), (1287259754, ⟨21/2, 41/2, 0⟩),
       (1287259755, ⟨11, 21, 0⟩)] := by
  refine ⟨by decide, by decide, by decide, by decide, by decide⟩

/-- Claim C8: when the `try` block of the `trkpt` close handler fails
(missing or unparsable `time`, `lat` or `lon`), the point is dropped without
raising — the track mapping is returned unchanged — and the parser carries
on with the rest of the stream exactly as it would from the reset state, so
subsequent valid points are still emitted. -/
theorem C8_malformed_point_skipped (append : Bool) (buf : List (String × String))
    (tracks : List (Int × TrackPoint)) (hbad : trkptFields buf = none) :
    gpxElementEnd "trkpt" append buf tracks = some tracks ∧
    ∀ (rootname : Option String) (st : GpxState) (rest : List XmlEvent),
      st.tracking = some "trkpt" → st.buf = buf → st.hasAppend = append →
      st.tracks = tracks →
      runGpx rootname (.close "trkpt" :: rest) st =
        runGpx rootname rest { st with tracking := none, buf := [] } := by
  have h1 : gpxElementEnd "trkpt" append buf tracks = some tracks := by
    simp only [gpxElementEnd, hbad]
    simp
  refine ⟨h1, ?_⟩
  intro rn st rest htr hbuf happ htk
  obtain ⟨rs, tr, el, bf, ha, sg, tk⟩ := st
  simp only at htr hbuf happ htk
  subst htr hbuf happ htk
  simp only [runGpx, gpxStep, h1]
  simp

/-- Witness for C8: a `trkpt` buffer with coordinates but no `time` child is
skipped (tracks stay empty) and the run continues from the reset state. -/
theorem C8_malformed_point_skipped_witness :
    trkptFields [("trkpt", ""), ("lat", "10.5"), ("lon", "20.5")] = none ∧
    gpxElementEnd "trkpt" true [("trkpt", ""), ("lat", "10.5"), ("lon", "20.5")] [] = some [] ∧
    runGpx (some "gpx") [.close "trkpt"]
        ⟨true, some "trkpt", "lon", [("trkpt", ""), ("lat", "10.5"), ("lon", "20.5")], true, 1, []⟩ =
      runGpx (some "gpx") []
        ⟨true, none, "lon", [], true, 1, []⟩ := by
  have hbad : trkptFields [("trkpt", ""), ("lat", "10.5"), ("lon", "20.5")] = none := by decide
  refine ⟨hbad, (C8_malformed_point_skipped true _ [] hbad).1, ?_⟩
  exact (C8_malformed_point_skipped true _ [] hbad).2 (some "gpx")
    ⟨true, some "trkpt", "lon", [("trkpt", ""), ("lat", "10.5"), ("lon", "20.5")], true, 1, []⟩
    [] rfl rfl rfl rfl

/-- Claim C9: a document whose root element differs from the declared root
name makes the parser fail with the root-mismatch error on that very first
element, with the state still initial — in particular no track point has
been emitted. -/
theorem C9_root_mismatch (rn r : String) (attrs : List (String × String))
    (rest : List XmlEvent) (hne : r ≠ rn) :
    runGpx (some rn) (.start r attrs :: rest) initGpxState =
      (initGpxState, some .rootMismatch) ∧ initGpxState.tracks = [] := by
  refine ⟨?_, rfl⟩
  simp only [runGpx, gpxStep, initGpxState]
  simp [hne]

/-- Witness for C9: a KML document fed to the parser declared with root
`gpx` fails immediately, whatever else follows. -/
theorem C9_root_mismatch_witness :
    runGpx (some "gpx") [.start "kml" [], .start "gx:Track" []] initGpxState =
      (initGpxState, some .rootMismatch) :=
  (C9_root_mismatch "gpx" "kml" [] _ (by decide)).1

/-- Claim C10: the coordinate validator returns false whenever latitude or
longitude is absent (Python's `None` sorts below every number, so the
`>= -90` / `>= -180` conjunct fails), and on present coordinates it returns
true exactly for -90 ≤ lat ≤ 90 and -180 ≤ lon ≤ 180; it is a total
function, so it never raises. -/
theorem C10_valid_coords_characterisation :
    (∀ lon, valid_coords none lon = false) ∧
    (∀ lat, valid_coords lat none = false) ∧
    (∀ (lat lon : ℚ), valid_coords (some lat) (some lon) = true ↔
      (-90 ≤ lat ∧ lat ≤ 90 ∧ -180 ≤ lon ∧ lon ≤ 180)) := by
  refine ⟨fun lon => rfl, fun lat => ?_, fun lat lon => ?_⟩
  · cases lat <;> simp [valid_coords, pyGe, pyLe]
  · simp [valid_coords, pyGe, pyLe, and_assoc]

end GG
